import Mathlib

/-!
Verification development for the tap-facebook-pages extraction engine
(src/tap_facebook_pages/streams.py).

The Python code is shallowly embedded: JSON values become the inductive
`JVal`, Python dicts become association lists with Python insertion/update
semantics (`dictSet`, `dictUpdate`, `dictPop`, `dictGet?`), generators
become functions returning lists, and fallible code returns
`Except String α` (the string names the Python exception).  Machine-level
details that no theorem depends on (percent-decoding of multi-byte UTF-8
sequences in `urllib.parse.unquote`, the `page_id` attribute side effect)
are noted at the definition they concern.
-/

/-- A JSON value, as produced by `response.json()` in the source. -/
inductive JVal where
  | null
  | bool (b : Bool)
  | num (n : Int)
  | str (s : String)
  | arr (elems : List JVal)
  | obj (fields : List (String × JVal))

/-- Python `isinstance(v, dict)`. -/
def JVal.isObj : JVal → Bool
  | .obj _ => true
  | _ => false

/-- Lookup in a Python dict modelled as an association list
(`d[k]` / `k in d` / `d.get(k)`). -/
def dictGet? {α : Type} (d : List (String × α)) (k : String) : Option α :=
  match d with
  | [] => none
  | (k', v) :: rest => if k' = k then some v else dictGet? rest k

/-- Python `d[k] = v`: replace the value in place if the key exists,
else append the new key at the end (dict insertion order). -/
def dictSet {α : Type} (d : List (String × α)) (k : String) (v : α) :
    List (String × α) :=
  match d with
  | [] => [(k, v)]
  | (k', v') :: rest =>
    if k' = k then (k, v) :: rest else (k', v') :: dictSet rest k v

/-- Python `d.update(kvs)`: apply `dictSet` for each pair in order. -/
def dictUpdate {α : Type} (d : List (String × α)) (kvs : List (String × α)) :
    List (String × α) :=
  kvs.foldl (fun acc kv => dictSet acc kv.1 kv.2) d

/-- Python `d.pop(k)` restricted to its effect on the dict:
remove the key.  (Dicts have unique keys, so removing every occurrence
coincides with removing the one occurrence.) -/
def dictPop {α : Type} (d : List (String × α)) (k : String) :
    List (String × α) :=
  d.filter (fun kv => kv.1 ≠ k)

theorem dictGet?_set_self {α : Type} (d : List (String × α)) (k : String) (v : α) :
    dictGet? (dictSet d k v) k = some v := by
  induction d with
  | nil => simp [dictSet, dictGet?]
  | cons hd tl ih =>
    by_cases h : hd.1 = k
    · simp [dictSet, dictGet?, h]
    · simp [dictSet, dictGet?, h, ih]

theorem dictGet?_set_ne {α : Type} (d : List (String × α)) (k k' : String) (v : α)
    (h : k' ≠ k) : dictGet? (dictSet d k' v) k = dictGet? d k := by
  induction d with
  | nil => simp [dictSet, dictGet?, h]
  | cons hd tl ih =>
    by_cases hk : hd.1 = k'
    · simp [dictSet, dictGet?, hk, h]
    · simp only [dictSet, hk, if_false]
      by_cases hk2 : hd.1 = k <;> simp [dictGet?, hk2, ih]

theorem dictGet?_pop_self {α : Type} (d : List (String × α)) (k : String) :
    dictGet? (dictPop d k) k = none := by
  induction d with
  | nil => simp [dictPop, dictGet?]
  | cons hd tl ih =>
    by_cases h : hd.1 = k
    · simpa [dictPop, dictGet?, h] using ih
    · simpa [dictPop, dictGet?, h] using ih

/-!
Embeds `FacebookPagesStream.get_stream_or_partition_state` (streams.py:136-144).
The selection between stream state and partition state is done by the
collaborating SDK; the repository-owned logic is the defensive rewrite of
the stored "progress_markers" entry, applied to the selected state dict:

    if "progress_markers" in state and isinstance(state.get("progress_markers", False), list):
        state["progress_markers"] = {}
-/
def get_stream_or_partition_state (state : List (String × JVal)) :
    List (String × JVal) :=
  match dictGet? state "progress_markers" with
  | some (.arr _) => dictSet state "progress_markers" (.obj [])
  | _ => state

/-!
Query-string machinery shared by `get_url_params` and
`get_next_page_token`.  `urllib.parse.urlparse(u).query` extracts the part
of the URL after the first `?` and before any `#`;
`urllib.parse.parse_qs` splits it on `&`, splits each piece at its first
`=`, drops pieces without `=` or with an empty value (keep_blank_values is
False), and groups the values into a dict key -> list of values.
Percent-decoding of names and values is omitted here: the pagination URLs
the source feeds to `parse_qs` carry plain alphanumeric values.
-/

/-- Split a character list on a separator character. -/
def splitOnCharAux (sep : Char) : List Char → List Char → List (List Char)
  | [], acc => [acc.reverse]
  | c :: rest, acc =>
    if c = sep then acc.reverse :: splitOnCharAux sep rest []
    else splitOnCharAux sep rest (c :: acc)

def splitOnChar (sep : Char) (l : List Char) : List (List Char) :=
  splitOnCharAux sep l []

/-- The query component of a URL: after the first `?`, before any `#`. -/
def urlQueryChars (u : List Char) : List Char :=
  (((u.dropWhile (fun c => c ≠ '?')).drop 1).takeWhile (fun c => c ≠ '#'))

/-- One `k=v` piece of a query string, split at the first `=`.
Pieces without `=` or with an empty value are dropped. -/
def qsPairOfPiece (piece : List Char) : Option (String × String) :=
  let name := piece.takeWhile (fun c => c ≠ '=')
  match piece.dropWhile (fun c => c ≠ '=') with
  | [] => none
  | _ :: v => if v.isEmpty then none else some (String.mk name, String.mk v)

/-- Append a value to a query-parameter dict, grouping repeated keys. -/
def qsAdd (d : List (String × List String)) (k : String) (v : String) :
    List (String × List String) :=
  match d with
  | [] => [(k, [v])]
  | (k', vs) :: rest =>
    if k' = k then (k', vs ++ [v]) :: rest else (k', vs) :: qsAdd rest k v

/-- Embeds `urllib.parse.parse_qs` on a query string. -/
def parse_qs (qs : String) : List (String × List String) :=
  ((splitOnChar '&' qs.data).filterMap qsPairOfPiece).foldl
    (fun d kv => qsAdd d kv.1 kv.2) []

/-- Python `int(s)` on the decimal strings found in pagination URLs:
an optional sign followed by at least one ASCII digit; anything else
raises ValueError (`none` here).  (Surrounding whitespace and digit-group
underscores, which `int` also accepts, do not occur in these URLs.) -/
def natOfDigits (l : List Char) : Option Nat :=
  if l ≠ [] ∧ l.all Char.isDigit then
    some (l.foldl (fun a c => a * 10 + (c.toNat - 48)) 0)
  else none

def pyInt? (s : String) : Option Int :=
  match s.data with
  | '-' :: rest => (natOfDigits rest).map (fun n => -(n : Int))
  | '+' :: rest => (natOfDigits rest).map (fun n => (n : Int))
  | l => (natOfDigits l).map (fun n => (n : Int))

/-- A query-parameter value as stored in the `params` dict of
`get_url_params`: the source mixes ints (`since`, `limit`), strings
(`access_token`, `fields`, `metric`) and the string lists produced by
`parse_qs`. -/
inductive PVal where
  | num (n : Int)
  | str (s : String)
  | strs (vs : List String)
deriving DecidableEq

/-- Embeds `parse_qs(urlparse(next_page_token).query)`: the parameters encoded in
a pagination-token URL, exactly as the base `get_url_params` returns them
(streams.py:81). -/
def tokenParams (u : String) : List (String × PVal) :=
  (parse_qs (String.mk (urlQueryChars u.data))).map (fun kv => (kv.1, PVal.strs kv.2))

/-- Python truthiness of a pagination token (`if next_page_token:`):
`None` and the empty string are falsy. -/
def pyTruthyTok : Option String → Bool
  | none => false
  | some s => s ≠ ""

/-- The per-run inputs the parameter builders read: the partition's stored
replication cursor as epoch seconds (`get_starting_timestamp`), the
partition's access token (`access_tokens.get(page_id)`), the configured
`columns` list, the stream schema's property names, and the stream's
metric list. -/
structure StreamConfig where
  startTs : Option Int
  accessToken : Option String
  columns : Option (List String)
  schemaProps : List String
  metrics : List String

/-- The no-token branch of `FacebookPagesStream.get_url_params`
(streams.py:83-96): `since` from the stored cursor when present, then
`access_token` when the partition has one, then `limit = 100`.
The `self.page_id` attribute assignment and the info log for a missing
token are side effects with no bearing on the returned dict. -/
def FacebookPagesStream_base_params (cfg : StreamConfig) : List (String × PVal) :=
  let p : List (String × PVal) := []
  let p := match cfg.startTs with
    | some ts => dictSet p "since" (.num ts)
    | none => p
  let p := match cfg.accessToken with
    | some tok => dictSet p "access_token" (.str tok)
    | none => p
  dictSet p "limit" (.num 100)

/-- Embeds `FacebookPagesStream.get_url_params` (streams.py:78-96). -/
def FacebookPagesStream_get_url_params (cfg : StreamConfig)
    (next_page_token : Option String) : List (String × PVal) :=
  match next_page_token with
  | some u => if u ≠ "" then tokenParams u else FacebookPagesStream_base_params cfg
  | none => FacebookPagesStream_base_params cfg

/-- Models the fields expression of streams.py:158-159 and 182-183: the
comma-join of the configured columns list when present, else of the
schema property names. -/
def configuredFields (cfg : StreamConfig) : String :=
  String.intercalate "," (match cfg.columns with
    | some cs => cs
    | none => cfg.schemaProps)

/-- Embeds `Page.get_url_params` (streams.py:156-161): unconditionally adds the
`fields` parameter on top of whatever the base class returned — there is
no early return for the token case. -/
def Page_get_url_params (cfg : StreamConfig) (next_page_token : Option String) :
    List (String × PVal) :=
  dictSet (FacebookPagesStream_get_url_params cfg next_page_token)
    "fields" (.str (configuredFields cfg))

/-- Embeds `Posts.get_url_params` (streams.py:176-185): token params returned
verbatim; otherwise `fields` is added. -/
def Posts_get_url_params (cfg : StreamConfig) (next_page_token : Option String) :
    List (String × PVal) :=
  let p := FacebookPagesStream_get_url_params cfg next_page_token
  if pyTruthyTok next_page_token then p
  else dictSet p "fields" (.str (configuredFields cfg))

/-- Embeds `PostTaggedProfile.get_url_params` (streams.py:203-209). -/
def PostTaggedProfile_get_url_params (cfg : StreamConfig)
    (next_page_token : Option String) : List (String × PVal) :=
  let p := FacebookPagesStream_get_url_params cfg next_page_token
  if pyTruthyTok next_page_token then p
  else dictSet p "fields" (.str "id,created_time,to")

/-- Embeds `PostAttachments.get_url_params` (streams.py:234-240). -/
def PostAttachments_get_url_params (cfg : StreamConfig)
    (next_page_token : Option String) : List (String × PVal) :=
  let p := FacebookPagesStream_get_url_params cfg next_page_token
  if pyTruthyTok next_page_token then p
  else dictSet p "fields" (.str "id,created_time,attachments")

/-- Embeds `PostInsights.get_url_params` (streams.py:333-339). -/
def PostInsights_get_url_params (cfg : StreamConfig)
    (next_page_token : Option String) : List (String × PVal) :=
  let p := FacebookPagesStream_get_url_params cfg next_page_token
  if pyTruthyTok next_page_token then p
  else dictSet p "fields"
    (.str ("id,created_time,insights.metric(" ++ String.intercalate "," cfg.metrics ++ ")"))

/-- Embeds `PageInsights.get_url_params` (streams.py:270-282).  `now` is
`int(time.time())`.  On the first request `until = params["since"] +
8035200`, clamped to `now - 86400` when it exceeds `now`; a missing
`since` key raises KeyError.  On a token request the first element of the
`until` value list is rewritten to `str(now - 86400)` when it parses to an
int greater than `now`.  Both branches then add the `metric` parameter. -/
def PageInsights_get_url_params (now : Int) (cfg : StreamConfig)
    (next_page_token : Option String) : Except String (List (String × PVal)) :=
  let params := FacebookPagesStream_get_url_params cfg next_page_token
  let day : Int := 86400
  if pyTruthyTok next_page_token = false then
    match dictGet? params "since" with
    | some (.num since) =>
      let untl := since + 8035200
      let params := dictSet params "until" (.num (if untl ≤ now then untl else now - day))
      .ok (dictSet params "metric" (.str (String.intercalate "," cfg.metrics)))
    | some _ => .error "TypeError: since"
    | none => .error "KeyError: since"
  else
    match dictGet? params "until" with
    | some (.strs (u0 :: rest)) =>
      match pyInt? u0 with
      | some ui =>
        let params :=
          if ui > now then dictSet params "until" (.strs (toString (now - day) :: rest))
          else params
        .ok (dictSet params "metric" (.str (String.intercalate "," cfg.metrics)))
      | none => .error "ValueError: until"
    | some _ => .error "TypeError: until"
    | none => .error "KeyError: until"

/-- An output row: a flat Python dict of field name to JSON value. -/
abbrev Row := List (String × JVal)

/-- Embeds `FacebookPagesStream.get_next_page_token` (streams.py:98-102):
return `resp_json["paging"]["next"]` when present, else `None`.
In a Graph API response `paging` is always a JSON object; a non-object
value cannot carry a `next` member, so it yields no token here. -/
def FacebookPagesStream_get_next_page_token (resp : Row) : Option String :=
  match dictGet? resp "paging" with
  | some (.obj paging) =>
    match dictGet? paging "next" with
    | some (.str nxt) => some nxt
    | _ => none
  | _ => none

/-- Embeds `PageInsights.get_next_page_token` (streams.py:284-295).  `now` is
`int(time.time())` and `day` is two days of seconds (172800).  The
`since`/`until` parameters of the `next` link are read
(`params["since"][0]`, raising KeyError when absent) and converted with
`int(...)` (raising ValueError on a non-numeric string); the token is
suppressed when `since >= now - day` or `now <= until <= now + day`. -/
def PageInsights_get_next_page_token (now : Int) (resp : Row) :
    Except String (Option String) :=
  match dictGet? resp "paging" with
  | some (.obj paging) =>
    match dictGet? paging "next" with
    | some (.str nxt) =>
      let params := parse_qs (String.mk (urlQueryChars nxt.data))
      let day : Int := 172800
      match dictGet? params "since" with
      | some (s0 :: _) =>
        match pyInt? s0 with
        | some since =>
          match dictGet? params "until" with
          | some (u0 :: _) =>
            match pyInt? u0 with
            | some untl =>
              .ok (if since ≥ now - day ∨ (untl ≥ now ∧ untl ≤ now + day) then none
                   else some nxt)
            | none => .error "ValueError: until"
          | _ => .error "KeyError: until"
        | none => .error "ValueError: since"
      | _ => .error "KeyError: since"
    | _ => .ok none
  | _ => .ok none

/-- Embeds `Posts.parse_response` (streams.py:187-191): each element of `data`
is tagged with `page_id` and yielded.  A missing `data` key or a non-dict
element raises, which the pagination engine later catches. -/
def Posts_parse_response (page_id : String) (resp : Row) :
    Except String (List Row) :=
  match dictGet? resp "data" with
  | some (.arr rows) =>
    rows.foldrM (fun row acc =>
      match row with
      | .obj r => .ok (dictSet r "page_id" (.str page_id) :: acc)
      | _ => .error "TypeError: row") []
  | some _ => .error "TypeError: data"
  | none => .error "KeyError: data"

/-- The `parent_info` dict built once per post by the attachment-style
flatteners (streams.py:214-218, 245-249): insertion order `page_id`,
`post_id`, `post_created_time`. -/
def parentInfo (page_id : String) (postId postCreated : JVal) : Row :=
  [("page_id", .str page_id), ("post_id", postId),
   ("post_created_time", postCreated)]

/-- The inner loop of `PostAttachments.parse_response` over
`attachment["subattachments"]["data"]` (streams.py:253-255): each
sub-attachment dict is updated with `parent_info` and yielded. -/
def paSubRows (parent : Row) (subs : List JVal) : Except String (List Row) :=
  match subs with
  | [] => .ok []
  | .obj s :: rest => do
    let tail ← paSubRows parent rest
    .ok (dictUpdate s parent :: tail)
  | _ :: _ => .error "AttributeError: update"

/-- The loop of `PostAttachments.parse_response` over
`row["attachments"]["data"]` (streams.py:251-258): sub-attachment rows
first, then `subattachments` is popped from the parent attachment, which
is updated with `parent_info` and yielded itself. -/
def paAttachmentRows (parent : Row) (atts : List JVal) :
    Except String (List Row) :=
  match atts with
  | [] => .ok []
  | .obj a :: rest => do
    let here ←
      match dictGet? a "subattachments" with
      | some (.obj sub) =>
        match dictGet? sub "data" with
        | some (.arr subs) => do
          let srows ← paSubRows parent subs
          .ok (srows ++ [dictUpdate (dictPop a "subattachments") parent])
        | some _ => .error "TypeError: subattachments data"
        | none => .error "KeyError: data"
      | some _ => .error "TypeError: subattachments"
      | none => .ok [dictUpdate a parent]
    let tail ← paAttachmentRows parent rest
    .ok (here ++ tail)
  | _ :: _ => .error "AttributeError: update"

/-- The outer loop of `PostAttachments.parse_response` over
`resp_json["data"]` (streams.py:244-258): posts without an `attachments`
key contribute no rows. -/
def paPostRows (page_id : String) (posts : List JVal) :
    Except String (List Row) :=
  match posts with
  | [] => .ok []
  | .obj r :: rest => do
    let postId ← match dictGet? r "id" with
      | some v => .ok v
      | none => .error "KeyError: id"
    let postCreated ← match dictGet? r "created_time" with
      | some v => .ok v
      | none => .error "KeyError: created_time"
    let parent := parentInfo page_id postId postCreated
    let here ←
      match dictGet? r "attachments" with
      | some (.obj att) =>
        match dictGet? att "data" with
        | some (.arr atts) => paAttachmentRows parent atts
        | some _ => .error "TypeError: attachments data"
        | none => .error "KeyError: data"
      | some _ => .error "TypeError: attachments"
      | none => .ok []
    let tail ← paPostRows page_id rest
    .ok (here ++ tail)
  | _ :: _ => .error "TypeError: post"

/-- Embeds `PostAttachments.parse_response` (streams.py:242-258). -/
def PostAttachments_parse_response (page_id : String) (resp : Row) :
    Except String (List Row) :=
  match dictGet? resp "data" with
  | some (.arr posts) => paPostRows page_id posts
  | some _ => .error "TypeError: data"
  | none => .error "KeyError: data"

/-- The loop of `PageInsights.parse_response` over `row["values"]`
(streams.py:307-319).  A dict-valued `value` explodes into one row per
key, `{"context": key, "value": value, "end_time": values["end_time"]}`,
then updated with the metric base item; any other `value` leads to the
values entry itself being updated with the base item and yielded. -/
def piValueRows (base : Row) (entries : List JVal) : Except String (List Row) :=
  match entries with
  | [] => .ok []
  | .obj ve :: rest => do
    let v ← match dictGet? ve "value" with
      | some v => .ok v
      | none => .error "KeyError: value"
    let here ← match v with
      | .obj m =>
        match dictGet? ve "end_time" with
        | some et =>
          .ok (m.map (fun kv =>
            dictUpdate [("context", JVal.str kv.1), ("value", kv.2), ("end_time", et)] base))
        | none => .error "KeyError: end_time"
      | _ => .ok [dictUpdate ve base]
    let tail ← piValueRows base rest
    .ok (here ++ tail)
  | _ :: _ => .error "TypeError: values entry"

/-- The loop of `PageInsights.parse_response` over `resp_json["data"]`
(streams.py:299-319): the base item holds `name`, `period`, `title`,
`id`; rows without a `values` key contribute nothing. -/
def piMetricRows (rows : List JVal) : Except String (List Row) :=
  match rows with
  | [] => .ok []
  | .obj r :: rest => do
    let nm ← match dictGet? r "name" with
      | some v => .ok v
      | none => .error "KeyError: name"
    let pd ← match dictGet? r "period" with
      | some v => .ok v
      | none => .error "KeyError: period"
    let ti ← match dictGet? r "title" with
      | some v => .ok v
      | none => .error "KeyError: title"
    let idv ← match dictGet? r "id" with
      | some v => .ok v
      | none => .error "KeyError: id"
    let base : Row := [("name", nm), ("period", pd), ("title", ti), ("id", idv)]
    let here ← match dictGet? r "values" with
      | some (.arr vs) => piValueRows base vs
      | some _ => .error "TypeError: values"
      | none => .ok []
    let tail ← piMetricRows rest
    .ok (here ++ tail)
  | _ :: _ => .error "TypeError: row"

/-- Embeds `PageInsights.parse_response` (streams.py:297-319). -/
def PageInsights_parse_response (resp : Row) : Except String (List Row) :=
  match dictGet? resp "data" with
  | some (.arr rows) => piMetricRows rows
  | some _ => .error "TypeError: data"
  | none => .error "KeyError: data"

/-- The loop of `PostInsights.parse_response` over `insights["values"]`
(streams.py:356-367): like `piValueRows` but the exploded dict rows carry
only `context` and `value` — no `end_time`. -/
def postiValueRows (base : Row) (entries : List JVal) : Except String (List Row) :=
  match entries with
  | [] => .ok []
  | .obj ve :: rest => do
    let v ← match dictGet? ve "value" with
      | some v => .ok v
      | none => .error "KeyError: value"
    let here ← match v with
      | .obj m =>
        .ok (m.map (fun kv =>
          dictUpdate [("context", JVal.str kv.1), ("value", kv.2)] base))
      | _ => .ok [dictUpdate ve base]
    let tail ← postiValueRows base rest
    .ok (here ++ tail)
  | _ :: _ => .error "TypeError: values entry"

/-- The loop of `PostInsights.parse_response` over
`row["insights"]["data"]` (streams.py:344-367): the base item is the
parent linkage (`post_id`, `page_id`, `post_created_time`) followed by
the metric metadata, which here includes `description`. -/
def postiInsightRows (page_id : String) (postId postCreated : JVal)
    (insights : List JVal) : Except String (List Row) :=
  match insights with
  | [] => .ok []
  | .obj ins :: rest => do
    let nm ← match dictGet? ins "name" with
      | some v => .ok v
      | none => .error "KeyError: name"
    let pd ← match dictGet? ins "period" with
      | some v => .ok v
      | none => .error "KeyError: period"
    let ti ← match dictGet? ins "title" with
      | some v => .ok v
      | none => .error "KeyError: title"
    let de ← match dictGet? ins "description" with
      | some v => .ok v
      | none => .error "KeyError: description"
    let idv ← match dictGet? ins "id" with
      | some v => .ok v
      | none => .error "KeyError: id"
    let base : Row :=
      [("post_id", postId), ("page_id", .str page_id),
       ("post_created_time", postCreated), ("name", nm), ("period", pd),
       ("title", ti), ("description", de), ("id", idv)]
    let here ← match dictGet? ins "values" with
      | some (.arr vs) => postiValueRows base vs
      | some _ => .error "TypeError: values"
      | none => .ok []
    let tail ← postiInsightRows page_id postId postCreated rest
    .ok (here ++ tail)
  | _ :: _ => .error "TypeError: insight"

/-- The outer loop of `PostInsights.parse_response` over
`resp_json["data"]` (streams.py:343-367): `row["insights"]["data"]` is
read unconditionally, so a post without `insights` raises. -/
def postiPostRows (page_id : String) (posts : List JVal) :
    Except String (List Row) :=
  match posts with
  | [] => .ok []
  | .obj r :: rest => do
    let postId ← match dictGet? r "id" with
      | some v => .ok v
      | none => .error "KeyError: id"
    let postCreated ← match dictGet? r "created_time" with
      | some v => .ok v
      | none => .error "KeyError: created_time"
    let here ←
      match dictGet? r "insights" with
      | some (.obj insObj) =>
        match dictGet? insObj "data" with
        | some (.arr insights) => postiInsightRows page_id postId postCreated insights
        | some _ => .error "TypeError: insights data"
        | none => .error "KeyError: data"
      | some _ => .error "TypeError: insights"
      | none => .error "KeyError: insights"
    let tail := postiPostRows page_id rest
    match tail with
    | .ok t => .ok (here ++ t)
    | .error e => .error e
  | _ :: _ => .error "TypeError: post"

/-- Embeds `PostInsights.parse_response` (streams.py:341-367). -/
def PostInsights_parse_response (page_id : String) (resp : Row) :
    Except String (List Row) :=
  match dictGet? resp "data" with
  | some (.arr posts) => postiPostRows page_id posts
  | some _ => .error "TypeError: data"
  | none => .error "KeyError: data"

/-!
The method `FacebookPagesStream.prepare_request` (streams.py:69-72) logs

    re.sub("access_token=[a-zA-Z0-9]+&", "access_token=*****&",
           urllib.parse.unquote(req.url))

The regex substitution is modelled by a left-to-right scanner: at each
position it matches the literal `access_token=`, then a maximal nonempty
run of ASCII alphanumerics, and then requires a literal `&`; backtracking
inside the run cannot help because a shorter run is followed by another
alphanumeric, so a position matches exactly when the maximal run after
`access_token=` is nonempty and followed by `&`.  Matches are replaced by
`access_token=*****&` and scanning resumes after the consumed text, as
`re.sub` does for non-overlapping matches.
-/

/-- The regex character class `[a-zA-Z0-9]` (`Char.isAlpha` and
`Char.isDigit` are ASCII-only, matching the regex). -/
def isUrlAlnum (c : Char) : Bool := c.isAlpha || c.isDigit

/-- Fuel-driven scanner for the `re.sub` call; `redactChars` supplies
enough fuel.  The literal `access_token=` is 13 characters long. -/
def redactAux : Nat → List Char → List Char
  | 0, l => l
  | _ + 1, [] => []
  | fuel + 1, c :: rest =>
    let l := c :: rest
    let run := (l.drop 13).takeWhile isUrlAlnum
    let after := (l.drop 13).dropWhile isUrlAlnum
    if "access_token=".data.isPrefixOf l ∧ run ≠ [] ∧ after.head? = some '&' then
      "access_token=*****&".data ++ redactAux fuel (after.drop 1)
    else
      c :: redactAux fuel rest

/-- Embeds `re.sub("access_token=[a-zA-Z0-9]+&", "access_token=*****&", s)`. -/
def redactChars (l : List Char) : List Char := redactAux l.length l

/-- Hexadecimal digit test for percent-escapes (case-insensitive, like
`urllib.parse.unquote`). -/
def isHexDig (c : Char) : Bool :=
  c.isDigit || ('a' ≤ c ∧ c ≤ 'f') || ('A' ≤ c ∧ c ≤ 'F')

def hexVal (c : Char) : Nat :=
  if c.isDigit then c.toNat - '0'.toNat
  else if 'a' ≤ c ∧ c ≤ 'f' then c.toNat - 'a'.toNat + 10
  else c.toNat - 'A'.toNat + 10

/-- Embeds `urllib.parse.unquote`, byte-level: a `%` followed by two hex digits
decodes to the corresponding character; an invalid escape is left as is.
(The source's decoder reassembles multi-byte UTF-8 escape sequences; the
URLs under consideration carry only ASCII escapes, where the two
coincide.) -/
def unquoteChars : List Char → List Char
  | [] => []
  | '%' :: a :: b :: rest2 =>
    if isHexDig a ∧ isHexDig b then
      Char.ofNat (hexVal a * 16 + hexVal b) :: unquoteChars rest2
    else '%' :: unquoteChars (a :: b :: rest2)
  | c :: rest => c :: unquoteChars rest

/-- The string `FacebookPagesStream.prepare_request` hands to the logger
in place of the raw request URL (streams.py:71). -/
def prepare_request_logged (url : String) : String :=
  String.mk (redactChars (unquoteChars url.data))

/-- Bool-valued contiguous-subsequence test, used to state that a logged
URL still contains a secret. -/
def containsSeq (needle : List Char) : List Char → Bool
  | [] => needle.isPrefixOf ([] : List Char)
  | c :: rest => needle.isPrefixOf (c :: rest) || containsSeq needle rest

/-!
The pagination engine `FacebookPagesStream.request_records`
(streams.py:37-67).  The stream-and-server behaviour it drives is
abstracted into two capabilities: `prepare` is `self.prepare_request`
(parameter building included — it runs OUTSIDE the try block, so its
exceptions propagate out of the generator), and `fetch` bundles
`self._request_with_backoff` plus the `parse_response` loop plus
`get_next_page_token`, everything that runs INSIDE the try block, as a
function of the token the page was requested with:

  * `PageOutcome.ok rows next` — request and parse succeeded yielding
    `rows`; `next` is the result of `get_next_page_token` (an exception
    there is also caught by the engine, with `next_page_token` keeping
    its old value because the assignment never happened);
  * `PageOutcome.err rowsBefore` — an exception during the request or
    mid-parse, after `rowsBefore` had already been yielded.

The loop-detection `raise RuntimeError` (streams.py:58-62) fires when the
new token is truthy and equal to the token just used; it is caught by the
engine's own `except` branch, which runs `finished = not next_page_token`
on the ALREADY REASSIGNED token.
-/

inductive PageOutcome (ρ : Type) where
  | ok (rows : List ρ) (next : Except String (Option String))
  | err (rowsBefore : List ρ)

structure StreamEffects (ρ : Type) where
  prepare : Option String → Except String Unit
  fetch : Option String → PageOutcome ρ

/-- The observable state of one `request_records` run: rows yielded so
far, the HTTP requests issued (by the token they were built from), the
current `next_page_token`, the `finished` flag, and whether an exception
escaped the generator (only `prepare_request` can do that). -/
structure RunState (ρ : Type) where
  rows : List ρ
  requests : List (Option String)
  tok : Option String
  finished : Bool
  errored : Bool

/-- One iteration of the `while not finished` loop (streams.py:46-67). -/
def stepOnce {ρ : Type} (E : StreamEffects ρ) (s : RunState ρ) : RunState ρ :=
  match E.prepare s.tok with
  | .error _ => ⟨s.rows, s.requests, s.tok, s.finished, true⟩
  | .ok _ =>
    match E.fetch s.tok with
    | .err rowsBefore =>
      ⟨s.rows ++ rowsBefore, s.requests ++ [s.tok], s.tok, !pyTruthyTok s.tok, false⟩
    | .ok rows next =>
      match next with
      | .error _ =>
        ⟨s.rows ++ rows, s.requests ++ [s.tok], s.tok, !pyTruthyTok s.tok, false⟩
      | .ok newTok =>
        if pyTruthyTok newTok && (newTok == s.tok) then
          -- the RuntimeError loop-detection branch: raised, then caught
          -- by the except branch, which recomputes finished from the
          -- reassigned token
          ⟨s.rows ++ rows, s.requests ++ [s.tok], newTok, !pyTruthyTok newTok, false⟩
        else
          ⟨s.rows ++ rows, s.requests ++ [s.tok], newTok, !pyTruthyTok newTok, false⟩

def request_records_aux {ρ : Type} (E : StreamEffects ρ) :
    Nat → RunState ρ → RunState ρ
  | 0, s => s
  | n + 1, s =>
    if s.finished || s.errored then s
    else request_records_aux E n (stepOnce E s)

/-- Embeds `request_records`, observed after at most `fuel` loop iterations
starting from `next_page_token = None`, `finished = False`. -/
def request_records {ρ : Type} (E : StreamEffects ρ) (fuel : Nat) : RunState ρ :=
  request_records_aux E fuel ⟨[], [], none, false, false⟩

/-! Shared helper lemmas. -/

/-- Python `isinstance(v, list)`. -/
def JVal.isArr : JVal → Bool
  | .arr _ => true
  | _ => false

theorem length_dropWhile_le' (p : Char → Bool) (l : List Char) :
    (l.dropWhile p).length ≤ l.length := by
  induction l with
  | nil => simp
  | cons c rest ih =>
    by_cases h : p c
    · simp only [List.dropWhile_cons, h, if_true, List.length_cons]
      omega
    · simp [List.dropWhile_cons, h]

theorem takeWhile_append_of_all (p : Char → Bool) (t : List Char) (x : Char)
    (s : List Char) (ha : t.all p = true) (hx : p x = false) :
    (t ++ x :: s).takeWhile p = t ∧ (t ++ x :: s).dropWhile p = x :: s := by
  induction t with
  | nil => simp [List.takeWhile_cons, List.dropWhile_cons, hx]
  | cons c t' ih =>
    simp only [List.all_cons, Bool.and_eq_true] at ha
    simp [List.takeWhile_cons, List.dropWhile_cons, ha.1, ih ha.2]

/-- The three `parent_info` tags land on every updated row, whatever the
row held before. -/
theorem parentInfo_tags (r : Row) (page_id : String) (pid pct : JVal) :
    dictGet? (dictUpdate r (parentInfo page_id pid pct)) "page_id"
        = some (.str page_id) ∧
    dictGet? (dictUpdate r (parentInfo page_id pid pct)) "post_id" = some pid ∧
    dictGet? (dictUpdate r (parentInfo page_id pid pct)) "post_created_time"
        = some pct := by
  unfold dictUpdate parentInfo
  simp only [List.foldl]
  refine ⟨?_, ?_, ?_⟩
  · rw [dictGet?_set_ne _ _ _ _ (by decide), dictGet?_set_ne _ _ _ _ (by decide),
      dictGet?_set_self]
  · rw [dictGet?_set_ne _ _ _ _ (by decide), dictGet?_set_self]
  · rw [dictGet?_set_self]

/-- C9 (counterexample): a stored state whose "progress_markers" value is
a string — a non-mapping — is left untouched by
`get_stream_or_partition_state`; the claimed reset to an empty mapping
does not happen, because the source tests `isinstance(..., list)` and
nothing else. -/
theorem progress_markers_string_not_reset :
    get_stream_or_partition_state [("progress_markers", .str "legacy")]
      = [("progress_markers", .str "legacy")] ∧
    dictGet? (get_stream_or_partition_state
        [("progress_markers", .str "legacy")]) "progress_markers"
      = some (.str "legacy") :=
  ⟨rfl, rfl⟩

/-- C9 (amended): `get_stream_or_partition_state` resets a stored
"progress_markers" value to an empty mapping exactly when that value is a
list; any other value — mapping or non-mapping alike — and an absent key
are left unchanged. -/
theorem progress_markers_reset_iff_list (state : List (String × JVal)) :
    (∀ l, dictGet? state "progress_markers" = some (.arr l) →
      get_stream_or_partition_state state
        = dictSet state "progress_markers" (.obj [])) ∧
    (∀ v, dictGet? state "progress_markers" = some v → v.isArr = false →
      get_stream_or_partition_state state = state) ∧
    (dictGet? state "progress_markers" = none →
      get_stream_or_partition_state state = state) := by
  refine ⟨fun l hl => ?_, fun v hv hva => ?_, fun hn => ?_⟩
  · simp [get_stream_or_partition_state, hl]
  · cases v <;> simp_all [get_stream_or_partition_state, JVal.isArr]
  · simp [get_stream_or_partition_state, hn]

theorem progress_markers_reset_iff_list_witness :
    get_stream_or_partition_state [("progress_markers", .arr [.num 1])]
      = dictSet [("progress_markers", JVal.arr [.num 1])] "progress_markers" (.obj []) ∧
    get_stream_or_partition_state [("progress_markers", .str "legacy"), ("k", .num 3)]
      = [("progress_markers", .str "legacy"), ("k", .num 3)] :=
  ⟨(progress_markers_reset_iff_list _).1 [.num 1] rfl,
   (progress_markers_reset_iff_list _).2.1 (.str "legacy") rfl rfl⟩

/-- C3 (counterexample): with a pagination token present,
`Page.get_url_params` does not return the token's parsed query parameters
verbatim — it appends a `fields` parameter on top of them (and
`PageInsights.get_url_params` likewise appends `metric`), because those
overrides have no early return for the token case. -/
theorem Page_get_url_params_adds_fields_to_token_params :
    Page_get_url_params ⟨none, none, some ["id", "name"], [], []⟩
        (some "https://g/p?limit=25&after=xyz")
      = [("limit", .strs ["25"]), ("after", .strs ["xyz"]),
         ("fields", .str "id,name")] ∧
    tokenParams "https://g/p?limit=25&after=xyz"
      = [("limit", .strs ["25"]), ("after", .strs ["xyz"])] ∧
    dictGet? (tokenParams "https://g/p?limit=25&after=xyz") "fields" = none ∧
    PageInsights_get_url_params 400000 ⟨some 100, some "AT", none, [], ["m"]⟩
        (some "https://g/i?since=1&until=2&limit=100")
      = .ok [("since", .strs ["1"]), ("until", .strs ["2"]),
             ("limit", .strs ["100"]), ("metric", .str "m")] ∧
    dictGet? (tokenParams "https://g/i?since=1&until=2&limit=100") "metric" = none :=
  ⟨rfl, rfl, rfl, rfl, rfl⟩

/-- C3 (amended): with a truthy pagination token, the base stream and the
Posts, PostTaggedProfile, PostAttachments and PostInsights overrides
return exactly the parameters parsed back from the token's query string;
the Page override additionally sets `fields` (and the PageInsights
override, treated in the window-clamp theorem, additionally sets `metric`
and may rewrite `until`). -/
theorem get_url_params_token_verbatim (cfg : StreamConfig) (u : String)
    (hu : u ≠ "") :
    FacebookPagesStream_get_url_params cfg (some u) = tokenParams u ∧
    Posts_get_url_params cfg (some u) = tokenParams u ∧
    PostTaggedProfile_get_url_params cfg (some u) = tokenParams u ∧
    PostAttachments_get_url_params cfg (some u) = tokenParams u ∧
    PostInsights_get_url_params cfg (some u) = tokenParams u ∧
    Page_get_url_params cfg (some u)
      = dictSet (tokenParams u) "fields" (.str (configuredFields cfg)) := by
  simp [FacebookPagesStream_get_url_params, Posts_get_url_params,
    PostTaggedProfile_get_url_params, PostAttachments_get_url_params,
    PostInsights_get_url_params, Page_get_url_params, pyTruthyTok, hu]

theorem get_url_params_token_verbatim_witness :
    FacebookPagesStream_get_url_params ⟨some 5, some "AT", none, ["id"], ["m"]⟩
        (some "https://g/p?a=1") = tokenParams "https://g/p?a=1" ∧
    Posts_get_url_params ⟨some 5, some "AT", none, ["id"], ["m"]⟩
        (some "https://g/p?a=1") = tokenParams "https://g/p?a=1" ∧
    PostTaggedProfile_get_url_params ⟨some 5, some "AT", none, ["id"], ["m"]⟩
        (some "https://g/p?a=1") = tokenParams "https://g/p?a=1" ∧
    PostAttachments_get_url_params ⟨some 5, some "AT", none, ["id"], ["m"]⟩
        (some "https://g/p?a=1") = tokenParams "https://g/p?a=1" ∧
    PostInsights_get_url_params ⟨some 5, some "AT", none, ["id"], ["m"]⟩
        (some "https://g/p?a=1") = tokenParams "https://g/p?a=1" ∧
    Page_get_url_params ⟨some 5, some "AT", none, ["id"], ["m"]⟩
        (some "https://g/p?a=1")
      = dictSet (tokenParams "https://g/p?a=1") "fields"
          (.str (configuredFields ⟨some 5, some "AT", none, ["id"], ["m"]⟩)) :=
  get_url_params_token_verbatim ⟨some 5, some "AT", none, ["id"], ["m"]⟩
    "https://g/p?a=1" (by decide)

/-- C6: a PostAttachments response with one post holding one attachment
that carries two sub-attachments flattens to exactly three rows — the two
sub-attachment rows first, each updated with the parent linkage, then the
parent attachment row with its `subattachments` key removed — and every
row carries the same `page_id`, `post_id` and `post_created_time`. -/
theorem PostAttachments_subattachment_explosion (page_id : String)
    (postId postCreated : JVal) (sub1 sub2 attRest : Row) :
    PostAttachments_parse_response page_id
      [("data", .arr [.obj [("id", postId), ("created_time", postCreated),
        ("attachments", .obj [("data", .arr [.obj
          (("subattachments", .obj [("data", .arr [.obj sub1, .obj sub2])])
            :: attRest)])])]])]
      = .ok [
          dictUpdate sub1 (parentInfo page_id postId postCreated),
          dictUpdate sub2 (parentInfo page_id postId postCreated),
          dictUpdate
            (dictPop (("subattachments",
                .obj [("data", .arr [.obj sub1, .obj sub2])]) :: attRest)
              "subattachments")
            (parentInfo page_id postId postCreated)] ∧
    (dictGet? (dictUpdate sub1 (parentInfo page_id postId postCreated)) "page_id"
        = some (.str page_id) ∧
     dictGet? (dictUpdate sub1 (parentInfo page_id postId postCreated)) "post_id"
        = some postId ∧
     dictGet? (dictUpdate sub1 (parentInfo page_id postId postCreated))
        "post_created_time" = some postCreated) ∧
    (dictGet? (dictUpdate sub2 (parentInfo page_id postId postCreated)) "page_id"
        = some (.str page_id) ∧
     dictGet? (dictUpdate sub2 (parentInfo page_id postId postCreated)) "post_id"
        = some postId ∧
     dictGet? (dictUpdate sub2 (parentInfo page_id postId postCreated))
        "post_created_time" = some postCreated) ∧
    (dictGet? (dictUpdate (dictPop (("subattachments",
          .obj [("data", .arr [.obj sub1, .obj sub2])]) :: attRest)
          "subattachments") (parentInfo page_id postId postCreated)) "page_id"
        = some (.str page_id) ∧
     dictGet? (dictUpdate (dictPop (("subattachments",
          .obj [("data", .arr [.obj sub1, .obj sub2])]) :: attRest)
          "subattachments") (parentInfo page_id postId postCreated)) "post_id"
        = some postId ∧
     dictGet? (dictUpdate (dictPop (("subattachments",
          .obj [("data", .arr [.obj sub1, .obj sub2])]) :: attRest)
          "subattachments") (parentInfo page_id postId postCreated))
        "post_created_time" = some postCreated) ∧
    dictGet? (dictUpdate (dictPop (("subattachments",
          .obj [("data", .arr [.obj sub1, .obj sub2])]) :: attRest)
          "subattachments") (parentInfo page_id postId postCreated))
        "subattachments" = none := by
  refine ⟨rfl, parentInfo_tags .., parentInfo_tags .., parentInfo_tags .., ?_⟩
  unfold dictUpdate parentInfo
  simp only [List.foldl]
  rw [dictGet?_set_ne _ _ _ _ (by decide), dictGet?_set_ne _ _ _ _ (by decide),
    dictGet?_set_ne _ _ _ _ (by decide), dictGet?_pop_self]

/-- C7: an insights `values` entry whose `value` is a mapping explodes
into one row per key — `context` the key, `value` the mapped value, with
`end_time` carried for PageInsights — merged with the metric metadata; an
entry whose `value` is a scalar yields exactly one row, the entry merged
with the metric metadata, holding that value and no `context` key.
PostInsights applies the same mapping-vs-scalar explosion and its rows
additionally carry `post_id`, `page_id` and `post_created_time`. -/
theorem insights_value_explosion (nm pd ti idv de : JVal) (k1 k2 : String)
    (w1 w2 et et2 w : JVal) (page_id : String) (postId postCreated : JVal)
    (hw : w.isObj = false) :
    PageInsights_parse_response
      [("data", .arr [.obj [("name", nm), ("period", pd), ("title", ti),
        ("id", idv),
        ("values", .arr [
          .obj [("value", .obj [(k1, w1), (k2, w2)]), ("end_time", et)],
          .obj [("value", w), ("end_time", et2)]])]])]
      = .ok [
          dictUpdate [("context", .str k1), ("value", w1), ("end_time", et)]
            [("name", nm), ("period", pd), ("title", ti), ("id", idv)],
          dictUpdate [("context", .str k2), ("value", w2), ("end_time", et)]
            [("name", nm), ("period", pd), ("title", ti), ("id", idv)],
          dictUpdate [("value", w), ("end_time", et2)]
            [("name", nm), ("period", pd), ("title", ti), ("id", idv)]] ∧
    dictGet? (dictUpdate [("value", w), ("end_time", et2)]
        [("name", nm), ("period", pd), ("title", ti), ("id", idv)]) "context"
      = none ∧
    dictGet? (dictUpdate [("value", w), ("end_time", et2)]
        [("name", nm), ("period", pd), ("title", ti), ("id", idv)]) "value"
      = some w ∧
    PostInsights_parse_response page_id
      [("data", .arr [.obj [("id", postId), ("created_time", postCreated),
        ("insights", .obj [("data", .arr [.obj [("name", nm), ("period", pd),
          ("title", ti), ("description", de), ("id", idv),
          ("values", .arr [
            .obj [("value", .obj [(k1, w1), (k2, w2)]), ("end_time", et)],
            .obj [("value", w), ("end_time", et2)]])]])])]])]
      = .ok [
          dictUpdate [("context", .str k1), ("value", w1)]
            [("post_id", postId), ("page_id", .str page_id),
             ("post_created_time", postCreated), ("name", nm), ("period", pd),
             ("title", ti), ("description", de), ("id", idv)],
          dictUpdate [("context", .str k2), ("value", w2)]
            [("post_id", postId), ("page_id", .str page_id),
             ("post_created_time", postCreated), ("name", nm), ("period", pd),
             ("title", ti), ("description", de), ("id", idv)],
          dictUpdate [("value", w), ("end_time", et2)]
            [("post_id", postId), ("page_id", .str page_id),
             ("post_created_time", postCreated), ("name", nm), ("period", pd),
             ("title", ti), ("description", de), ("id", idv)]] ∧
    dictGet? (dictUpdate [("context", .str k1), ("value", w1)]
        [("post_id", postId), ("page_id", .str page_id),
         ("post_created_time", postCreated), ("name", nm), ("period", pd),
         ("title", ti), ("description", de), ("id", idv)]) "post_id"
      = some postId ∧
    dictGet? (dictUpdate [("context", .str k1), ("value", w1)]
        [("post_id", postId), ("page_id", .str page_id),
         ("post_created_time", postCreated), ("name", nm), ("period", pd),
         ("title", ti), ("description", de), ("id", idv)]) "page_id"
      = some (.str page_id) ∧
    dictGet? (dictUpdate [("context", .str k1), ("value", w1)]
        [("post_id", postId), ("page_id", .str page_id),
         ("post_created_time", postCreated), ("name", nm), ("period", pd),
         ("title", ti), ("description", de), ("id", idv)]) "post_created_time"
      = some postCreated ∧
    dictGet? (dictUpdate [("value", w), ("end_time", et2)]
        [("post_id", postId), ("page_id", .str page_id),
         ("post_created_time", postCreated), ("name", nm), ("period", pd),
         ("title", ti), ("description", de), ("id", idv)]) "context" = none := by
  cases w with
  | obj m => simp [JVal.isObj] at hw
  | null => exact ⟨rfl, rfl, rfl, rfl, rfl, rfl, rfl, rfl⟩
  | bool b => exact ⟨rfl, rfl, rfl, rfl, rfl, rfl, rfl, rfl⟩
  | num n => exact ⟨rfl, rfl, rfl, rfl, rfl, rfl, rfl, rfl⟩
  | str s => exact ⟨rfl, rfl, rfl, rfl, rfl, rfl, rfl, rfl⟩
  | arr l => exact ⟨rfl, rfl, rfl, rfl, rfl, rfl, rfl, rfl⟩

theorem insights_value_explosion_witness :
    PageInsights_parse_response
      [("data", .arr [.obj [("name", .str "m"), ("period", .str "day"),
        ("title", .str "M"), ("id", .str "i1"),
        ("values", .arr [
          .obj [("value", .obj [("a", .num 1), ("b", .num 2)]),
                ("end_time", .str "E")],
          .obj [("value", .num 7), ("end_time", .str "E2")]])]])]
      = .ok [
          dictUpdate [("context", .str "a"), ("value", .num 1), ("end_time", .str "E")]
            [("name", .str "m"), ("period", .str "day"), ("title", .str "M"),
             ("id", .str "i1")],
          dictUpdate [("context", .str "b"), ("value", .num 2), ("end_time", .str "E")]
            [("name", .str "m"), ("period", .str "day"), ("title", .str "M"),
             ("id", .str "i1")],
          dictUpdate [("value", .num 7), ("end_time", .str "E2")]
            [("name", .str "m"), ("period", .str "day"), ("title", .str "M"),
             ("id", .str "i1")]] ∧
    dictGet? (dictUpdate [("value", JVal.num 7), ("end_time", JVal.str "E2")]
        [("name", JVal.str "m"), ("period", JVal.str "day"),
         ("title", JVal.str "M"), ("id", JVal.str "i1")]) "context" = none :=
  ⟨(insights_value_explosion (JVal.str "m") (JVal.str "day") (JVal.str "M")
      (JVal.str "i1") (JVal.str "d") "a" "b" (JVal.num 1) (JVal.num 2)
      (JVal.str "E") (JVal.str "E2") (JVal.num 7) "P" (JVal.str "p1")
      (JVal.str "T1") rfl).1,
   (insights_value_explosion (JVal.str "m") (JVal.str "day") (JVal.str "M")
      (JVal.str "i1") (JVal.str "d") "a" "b" (JVal.num 1) (JVal.num 2)
      (JVal.str "E") (JVal.str "E2") (JVal.num 7) "P" (JVal.str "p1")
      (JVal.str "T1") rfl).2.1⟩

/-- The `until` entry of a parameter-building result, when it succeeded. -/
def paramsUntil : Except String (List (String × PVal)) → Option PVal
  | .ok p => dictGet? p "until"
  | .error _ => none

/-- C4: on the first PageInsights request (no token) with stored cursor
`since = T`, the request's `until` is `T + 8035200` when that sum does not
exceed `now` and `now - 86400` otherwise; on a token request, the `until`
parsed from the token is replaced by `str(now - 86400)` exactly when it
exceeds `now` and is kept unchanged otherwise. -/
theorem PageInsights_until_clamp (now T : Int) (atok : Option String)
    (cols : Option (List String)) (props ms : List String)
    (cfg2 : StreamConfig) (u u0 : String) (rest : List String) (ui : Int)
    (hu : u ≠ "")
    (hlook : dictGet? (tokenParams u) "until" = some (.strs (u0 :: rest)))
    (hint : pyInt? u0 = some ui) :
    paramsUntil (PageInsights_get_url_params now ⟨some T, atok, cols, props, ms⟩ none)
      = some (.num (if T + 8035200 ≤ now then T + 8035200 else now - 86400)) ∧
    paramsUntil (PageInsights_get_url_params now cfg2 (some u))
      = some (.strs ((if ui > now then toString (now - 86400) else u0) :: rest)) := by
  constructor
  · cases atok <;> rfl
  · have htok : pyTruthyTok (some u) = true := by
      simp [pyTruthyTok, hu]
    have hparams : FacebookPagesStream_get_url_params cfg2 (some u) = tokenParams u := by
      simp [FacebookPagesStream_get_url_params, hu]
    simp only [PageInsights_get_url_params, htok, Bool.true_eq_false, if_false,
      hparams, hlook, hint]
    by_cases hc : ui > now
    · simp only [hc, if_true, paramsUntil]
      rw [dictGet?_set_ne _ _ _ _ (by decide), dictGet?_set_self]
    · simp only [hc, if_false, paramsUntil]
      rw [dictGet?_set_ne _ _ _ _ (by decide), hlook]

theorem PageInsights_until_clamp_witness :
    paramsUntil (PageInsights_get_url_params 400000
        ⟨some 100, some "AT", none, [], ["m"]⟩ none)
      = some (.num (if (100 : Int) + 8035200 ≤ 400000 then 100 + 8035200
          else 400000 - 86400)) ∧
    paramsUntil (PageInsights_get_url_params 400000
        ⟨some 100, some "AT", none, [], ["m"]⟩
        (some "https://g/i?since=1&until=500000&limit=100"))
      = some (.strs ((if (500000 : Int) > 400000 then toString ((400000 : Int) - 86400)
          else "500000") :: [])) :=
  PageInsights_until_clamp 400000 100 (some "AT") none [] ["m"]
    ⟨some 100, some "AT", none, [], ["m"]⟩
    "https://g/i?since=1&until=500000&limit=100" "500000" [] 500000
    (by decide) rfl rfl

/-- C5: for a PageInsights response whose `paging.next` link carries
numeric `since` and `until` query parameters, the next-page token is
suppressed exactly when `since ≥ now - 172800` or `until` lies within
`[now, now + 172800]`, and is the `next` link otherwise; a response
without a `paging` object, or whose paging object has no `next` member,
yields no token. -/
theorem PageInsights_next_token_rule (now : Int) (resp : Row)
    (pg : List (String × JVal)) (nxt s0 u0 : String) (ss uu : List String)
    (since untl : Int) (resp2 resp3 : Row) (pg3 : List (String × JVal))
    (h1 : dictGet? resp "paging" = some (.obj pg))
    (h2 : dictGet? pg "next" = some (.str nxt))
    (h3 : dictGet? (parse_qs (String.mk (urlQueryChars nxt.data))) "since"
        = some (s0 :: ss))
    (h4 : pyInt? s0 = some since)
    (h5 : dictGet? (parse_qs (String.mk (urlQueryChars nxt.data))) "until"
        = some (u0 :: uu))
    (h6 : pyInt? u0 = some untl)
    (h7 : dictGet? resp2 "paging" = none)
    (h8 : dictGet? resp3 "paging" = some (.obj pg3))
    (h9 : dictGet? pg3 "next" = none) :
    PageInsights_get_next_page_token now resp
      = .ok (if since ≥ now - 172800 ∨ (untl ≥ now ∧ untl ≤ now + 172800)
          then none else some nxt) ∧
    PageInsights_get_next_page_token now resp2 = .ok none ∧
    PageInsights_get_next_page_token now resp3 = .ok none := by
  refine ⟨?_, ?_, ?_⟩
  · simp only [PageInsights_get_next_page_token, h1, h2, h3, h4, h5, h6]
  · simp only [PageInsights_get_next_page_token, h7]
  · simp only [PageInsights_get_next_page_token, h8, h9]

theorem PageInsights_next_token_rule_witness :
    PageInsights_get_next_page_token 400000
      [("paging", .obj [("next", .str "https://g/i?since=310000&until=320000")])]
      = .ok (if (310000 : Int) ≥ 400000 - 172800 ∨
          ((320000 : Int) ≥ 400000 ∧ (320000 : Int) ≤ 400000 + 172800)
          then none else some "https://g/i?since=310000&until=320000") ∧
    PageInsights_get_next_page_token 400000 ([] : Row) = .ok none ∧
    PageInsights_get_next_page_token 400000 [("paging", .obj [("k", .num 1)])]
      = .ok none :=
  PageInsights_next_token_rule 400000
    [("paging", .obj [("next", .str "https://g/i?since=310000&until=320000")])]
    [("next", .str "https://g/i?since=310000&until=320000")]
    "https://g/i?since=310000&until=320000" "310000" "320000" [] []
    310000 320000 [] [("paging", .obj [("k", .num 1)])] [("k", .num 1)]
    rfl rfl rfl rfl rfl rfl rfl rfl rfl

/-- A server whose every page comes back with `paging.next` equal to the
token `"t"`: the first (token-less) request yields row 10 and the token
`"t"`, and every request made with a token yields row 20 and the same
token `"t"` again — the scenario the loop-detection `RuntimeError` of
streams.py:58-62 is written for. -/
def loopServer : StreamEffects Nat :=
  ⟨fun _ => .ok (),
   fun tok =>
    match tok with
    | none => .ok [10] (.ok (some "t"))
    | some _ => .ok [20] (.ok (some "t"))⟩

theorem loopServer_fixpoint (n : Nat) (r : List Nat) (q : List (Option String)) :
    request_records_aux loopServer n ⟨r, q, some "t", false, false⟩
      = ⟨r ++ List.replicate n 20, q ++ List.replicate n (some "t"),
         some "t", false, false⟩ := by
  induction n generalizing r q with
  | zero => simp [request_records_aux]
  | succ n ih =>
    have hstep : stepOnce loopServer ⟨r, q, some "t", false, false⟩
        = ⟨r ++ [20], q ++ [some "t"], some "t", false, false⟩ := rfl
    rw [request_records_aux]
    simp [hstep, ih, List.replicate_succ, List.append_assoc]

/-- C1: when the next-page token computed after a page equals the token
just used, `request_records` does NOT abort pagination and terminate —
the loop-detection `RuntimeError` it raises is caught by its own broad
`except` branch, which recomputes `finished` from the already reassigned
(truthy) token, so the engine re-requests token `"t"` on every later
iteration and re-emits that page's rows without ever finishing. -/
theorem request_records_loop_detection_never_terminates (n : Nat) :
    request_records loopServer (n + 1)
      = ⟨10 :: List.replicate n 20, none :: List.replicate n (some "t"),
         some "t", false, false⟩ ∧
    (request_records loopServer n).finished = false ∧
    (request_records loopServer n).errored = false := by
  have hstep : stepOnce loopServer ⟨[], [], none, false, false⟩
      = ⟨[10], [none], some "t", false, false⟩ := rfl
  have hmain : ∀ m : Nat, request_records loopServer (m + 1)
      = ⟨10 :: List.replicate m 20, none :: List.replicate m (some "t"),
         some "t", false, false⟩ := by
    intro m
    rw [request_records, request_records_aux]
    simp [hstep, loopServer_fixpoint]
  refine ⟨hmain n, ?_, ?_⟩ <;> cases n with
  | zero => rfl
  | succ m => rw [hmain m]

/-- A server whose first (token-less) request succeeds with row 10 and
next token `"t"`, and whose every token request raises before yielding
anything. -/
def failingPageServer : StreamEffects Nat :=
  ⟨fun _ => .ok (),
   fun tok =>
    match tok with
    | none => .ok [10] (.ok (some "t"))
    | some _ => .err []⟩

/-- A server whose very first request raises before yielding anything. -/
def failingFirstServer : StreamEffects Nat :=
  ⟨fun _ => .ok (), fun _ => .err []⟩

/-- C2 (counterexample): after the exception raised while fetching the
page for token `"t"` (the second request), `request_records` is not
finished and issues a further request with the very same token — the
`except` branch runs `finished = not next_page_token` on the still-truthy
token instead of terminating pagination. -/
theorem request_records_reissues_request_after_page_error :
    request_records failingPageServer 3
      = ⟨[10], [none, some "t", some "t"], some "t", false, false⟩ :=
  rfl

/-- C2 (amended): an exception during the request or parse of a page is
caught (`errored` stays false) and the rows yielded before it are
preserved, but pagination terminates only when the page was fetched
without a token (the first page): the `except` branch recomputes
`finished = not next_page_token` from the unchanged token, so for a
truthy token the loop re-issues the same request instead of stopping. -/
theorem stepOnce_page_error_behavior {ρ : Type} (E : StreamEffects ρ)
    (s : RunState ρ) (rowsBefore : List ρ)
    (hp : E.prepare s.tok = .ok ()) (hf : E.fetch s.tok = .err rowsBefore) :
    stepOnce E s = ⟨s.rows ++ rowsBefore, s.requests ++ [s.tok], s.tok,
      !pyTruthyTok s.tok, false⟩ := by
  simp [stepOnce, hp, hf]

theorem stepOnce_page_error_behavior_witness :
    stepOnce failingFirstServer ⟨[], [], none, false, false⟩
      = ⟨[], [none], none, true, false⟩ ∧
    stepOnce failingPageServer ⟨[10], [none], some "t", false, false⟩
      = ⟨[10], [none, some "t"], some "t", false, false⟩ :=
  ⟨stepOnce_page_error_behavior failingFirstServer ⟨[], [], none, false, false⟩
      [] rfl rfl,
   stepOnce_page_error_behavior failingPageServer
      ⟨[10], [none], some "t", false, false⟩ [] rfl rfl⟩

theorem request_records_aux_errored {ρ : Type} (E : StreamEffects ρ) (n : Nat)
    (s : RunState ρ) (h : s.errored = true) : request_records_aux E n s = s := by
  cases n <;> simp [request_records_aux, h]

/-- The PageInsights stream driven through the engine: `prepare` is the
parameter building of `prepare_request` (which `request_records` calls
OUTSIDE its try block, streams.py:47-49), `fetch` is irrelevant here. -/
def pageInsightsEffects (now : Int) (cfg : StreamConfig) : StreamEffects Nat :=
  ⟨fun tok => (PageInsights_get_url_params now cfg tok).map (fun _ => ()),
   fun _ => .ok [] (.ok none)⟩

/-- C10: on a partition with no stored replication cursor and no starting
timestamp the base parameter builder omits `since`, so the first
PageInsights parameter build fails with KeyError; since `prepare_request`
runs outside the try block of `request_records`, the run aborts with the
propagated exception — no HTTP request is issued and no row is emitted —
instead of being handled as a page-level failure. -/
theorem PageInsights_missing_since_aborts_run (now : Int)
    (atok : Option String) (cols : Option (List String))
    (props ms : List String) (n : Nat) :
    PageInsights_get_url_params now ⟨none, atok, cols, props, ms⟩ none
      = .error "KeyError: since" ∧
    request_records (pageInsightsEffects now ⟨none, atok, cols, props, ms⟩)
        (n + 1)
      = ⟨[], [], none, false, true⟩ := by
  have herr : PageInsights_get_url_params now ⟨none, atok, cols, props, ms⟩ none
      = .error "KeyError: since" := by
    cases atok <;> rfl
  refine ⟨herr, ?_⟩
  have hstep : stepOnce (pageInsightsEffects now ⟨none, atok, cols, props, ms⟩)
      ⟨[], [], none, false, false⟩ = ⟨[], [], none, false, true⟩ := by
    simp [stepOnce, pageInsightsEffects, herr, Except.map]
  rw [request_records, request_records_aux]
  simp only [Bool.or_self, if_false, hstep]
  exact request_records_aux_errored _ n _ rfl

theorem redactAux_nil (f : Nat) : redactAux f [] = [] := by
  cases f <;> rfl

theorem redactAux_fuel (f : Nat) : ∀ (g : Nat) (l : List Char),
    l.length ≤ f → l.length ≤ g → redactAux f l = redactAux g l := by
  induction f with
  | zero =>
    intro g l hf _
    have hl : l = [] := List.eq_nil_of_length_eq_zero (Nat.le_zero.mp hf)
    subst hl
    rw [redactAux_nil, redactAux_nil]
  | succ f ih =>
    intro g l hf hg
    cases l with
    | nil => rw [redactAux_nil, redactAux_nil]
    | cons c rest =>
      cases g with
      | zero => simp at hg
      | succ g' =>
        have hdw : ((((c :: rest).drop 13).dropWhile isUrlAlnum).drop 1).length
            ≤ rest.length := by
          have h1 := length_dropWhile_le' isUrlAlnum ((c :: rest).drop 13)
          have h2 : ((c :: rest).drop 13).length = (c :: rest).length - 13 :=
            List.length_drop 13 (c :: rest)
          have h3 : ((((c :: rest).drop 13).dropWhile isUrlAlnum).drop 1).length
              = (((c :: rest).drop 13).dropWhile isUrlAlnum).length - 1 :=
            List.length_drop ..
          simp only [List.length_cons] at h2
          omega
        simp only [redactAux]
        split_ifs with hc
        · congr 1
          exact ih _ _ (by simp only [List.length_cons] at hf; omega)
            (by simp only [List.length_cons] at hg; omega)
        · congr 1
          exact ih _ _ (by simp only [List.length_cons] at hf; omega)
            (by simp only [List.length_cons] at hg; omega)

theorem unquote_no_percent (l : List Char) (h : '%' ∉ l) : unquoteChars l = l := by
  induction l with
  | nil => rfl
  | cons c rest ih =>
    rw [List.mem_cons, not_or] at h
    obtain ⟨hc, hrest⟩ := h
    rw [unquoteChars.eq_def]
    split
    · rename_i heq
      exact absurd heq (by simp)
    · rename_i a b rest2 heq
      injection heq with h1 h2
      exact absurd h1.symm hc
    · rename_i c2 rest2 hshape heq
      injection heq with h1 h2
      subst h1
      subst h2
      rw [ih hrest]

theorem redactAux_step_pos (f : Nat) (t s : List Char) (ht : t ≠ [])
    (ha : t.all isUrlAlnum = true) :
    redactAux (f + 1) ("access_token=".data ++ (t ++ '&' :: s))
      = "access_token=*****&".data ++ redactAux f s := by
  obtain ⟨htw, hdw⟩ := takeWhile_append_of_all isUrlAlnum t '&' s ha rfl
  have hpre : "access_token=".data.isPrefixOf
      ("access_token=".data ++ (t ++ '&' :: s)) = true := by
    rw [ List.isPrefixOf_iff_prefix]
    exact List.prefix_append _ _
  have hdrop : ("access_token=".data ++ (t ++ '&' :: s)).drop 13
      = t ++ '&' :: s := by
    have h13 : (13 : Nat) = ("access_token=".data).length := rfl
    rw [h13, List.drop_left]
  rw [show ("access_token=".data ++ (t ++ '&' :: s))
      = 'a' :: 'c' :: 'c' :: 'e' :: 's' :: 's' :: '_' :: 't' :: 'o' :: 'k' ::
        'e' :: 'n' :: '=' :: (t ++ '&' :: s) from rfl] at hpre hdrop ⊢
  simp only [redactAux]
  rw [hdrop, htw, hdw]
  rw [if_pos ⟨hpre, ht, rfl⟩]
  rw [show (('&' :: s : List Char)).drop 1 = s from rfl]

/-- C8 (counterexample): the regex `access_token=[a-zA-Z0-9]+&` only
matches a token followed by `&`, so when `access_token` is the last query
parameter the logged URL is unchanged and still contains the secret token
value. -/
theorem redaction_misses_trailing_access_token :
    prepare_request_logged
        "https://graph.facebook.com/v10.0/1?limit=100&access_token=ABCD1234"
      = "https://graph.facebook.com/v10.0/1?limit=100&access_token=ABCD1234" ∧
    containsSeq "ABCD1234".data
      (prepare_request_logged
        "https://graph.facebook.com/v10.0/1?limit=100&access_token=ABCD1234").data
      = true :=
  ⟨rfl, rfl⟩

theorem redactAux_pass_no_match (f : Nat) (p rest : List Char)
    (H : ∀ q, q ∈ p.tails → q ≠ [] →
      "access_token=".data.isPrefixOf (q ++ rest) = false) :
    redactAux (f + p.length) (p ++ rest) = p ++ redactAux f rest := by
  induction p with
  | nil => rfl
  | cons c p2 ih =>
    have hc : "access_token=".data.isPrefixOf (c :: (p2 ++ rest)) = false :=
      H (c :: p2) (by simp [List.mem_tails]) (by simp)
    rw [show f + (c :: p2).length = (f + p2.length) + 1 from rfl]
    rw [show (c :: p2) ++ rest = c :: (p2 ++ rest) from rfl]
    simp only [redactAux]
    rw [if_neg (by intro h; simp [hc] at h)]
    rw [ih (fun q hq hne => H q (by
      rw [List.mem_tails] at hq ⊢
      exact hq.trans (List.suffix_cons c p2)) hne)]
    rfl

/-- C8 (amended): for a URL without percent-escapes (so the `unquote`
step leaves it unchanged), the string logged by `prepare_request`
replaces an `access_token` value that is a nonempty ASCII-alphanumeric
run immediately followed by `&` with the fixed mask `*****`, at any
position of the URL: the prefix before the parameter — any URL text in
which no position starts another `access_token=` occurrence — and the
suffix after the `&` are preserved, the suffix itself rescanned by the
same rule.  A token value that is the last query parameter (the
counterexample) or one containing a character outside `[a-zA-Z0-9]`
(for example `AB_CD`) is logged unredacted. -/
theorem redaction_masks_ampersand_terminated_token (p t s : List Char)
    (ht : t ≠ []) (ha : t.all isUrlAlnum = true)
    (hnm : ∀ q, q ∈ p.tails → q ≠ [] →
      "access_token=".data.isPrefixOf
        (q ++ ("access_token=".data ++ (t ++ '&' :: s))) = false)
    (hnp : '%' ∉ p ++ ("access_token=".data ++ (t ++ '&' :: s))) :
    prepare_request_logged
        (String.mk (p ++ ("access_token=".data ++ (t ++ '&' :: s))))
      = String.mk (p ++ ("access_token=*****&".data ++ redactChars s)) ∧
    prepare_request_logged "https://g/1?access_token=AB_CD&limit=9"
      = "https://g/1?access_token=AB_CD&limit=9" ∧
    containsSeq "AB_CD".data
      (prepare_request_logged "https://g/1?access_token=AB_CD&limit=9").data
      = true := by
  refine ⟨?_, rfl, rfl⟩
  show String.mk (redactChars
        (unquoteChars (p ++ ("access_token=".data ++ (t ++ '&' :: s)))))
      = String.mk (p ++ ("access_token=*****&".data ++ redactChars s))
  rw [unquote_no_percent _ hnp]
  have hlen : (p ++ ("access_token=".data ++ (t ++ '&' :: s))).length
      = (13 + t.length + s.length + 1) + p.length := by
    have h13 : ("access_token=".data).length = 13 := rfl
    simp only [List.length_append, List.length_cons, h13]
    omega
  rw [show redactChars (p ++ ("access_token=".data ++ (t ++ '&' :: s)))
      = redactAux (p ++ ("access_token=".data ++ (t ++ '&' :: s))).length
          (p ++ ("access_token=".data ++ (t ++ '&' :: s))) from rfl]
  rw [hlen]
  rw [redactAux_pass_no_match (13 + t.length + s.length + 1) p _ hnm]
  rw [redactAux_step_pos _ _ _ ht ha]
  rw [redactAux_fuel (13 + t.length + s.length) s.length s (by omega) (le_refl _)]
  rfl

theorem redaction_masks_ampersand_terminated_token_witness :
    prepare_request_logged
        (String.mk ("https://graph.facebook.com/v10.0/1/insights?since=100&".data
          ++ ("access_token=".data ++ ("ABCD1234".data ++ '&' :: "limit=100".data))))
      = String.mk ("https://graph.facebook.com/v10.0/1/insights?since=100&".data
          ++ ("access_token=*****&".data ++ redactChars "limit=100".data)) ∧
    prepare_request_logged "https://g/1?access_token=AB_CD&limit=9"
      = "https://g/1?access_token=AB_CD&limit=9" ∧
    containsSeq "AB_CD".data
      (prepare_request_logged "https://g/1?access_token=AB_CD&limit=9").data
      = true :=
  redaction_masks_ampersand_terminated_token
    "https://graph.facebook.com/v10.0/1/insights?since=100&".data
    "ABCD1234".data "limit=100".data
    (by decide) (by decide) (by decide) (by decide)
